import Mathlib

/-!
Shallow embedding of the greenhouse dashboard's telemetry synchronizer.

Two source versions exist:
* `src/unnamed/part_000` — the newer `App.jsx`: envelope-aware `fetchData`
  with a durable `localStorage` cache and `getChartData`.
* `src/src/App.jsx` — the legacy version: bare-array `fetchData`, no cache.

Modelling conventions:
* JS numbers are modelled as `ℚ` (exact rationals standing in for doubles).
* JS `undefined`/missing values are modelled with `Option` (`none` = absent).
* A JSON object's sparse field set is an association list.
* `localeCompare` is modelled as code-point (ordinal) string comparison,
  the collation it implements for the ASCII `snake_case` sensor names the
  backend produces; locale-specific collation is environment data, not code.
* Readings are well-typed (`sensor` is a string); presentation-only fields
  of chart points (`uniqueKey`, locale-formatted `timeLabel`,
  `isAnomalyPoint`) are elided, keeping the raw timestamp as `time`.
-/

namespace Greenhouse

/-! ## JS numeric-string parsing (`isNaN(string)` model) -/

/-- Whitespace stripped by the JS ToNumber conversion (ASCII fragment). -/
def isJsWhite (c : Char) : Bool :=
  c == ' ' || c == '\t' || c == '\n' || c == '\r' || c == '\x0b' || c == '\x0c'

/-- Nonempty run of decimal digits. -/
def decDigits (cs : List Char) : Bool :=
  !cs.isEmpty && cs.all Char.isDigit

/-- Mantissa of a JS decimal literal: digits, optionally with one dot,
with digits required on at least one side of the dot. -/
def mantissaOk (cs : List Char) : Bool :=
  let before := cs.takeWhile (fun c => c != '.')
  match cs.dropWhile (fun c => c != '.') with
  | [] => decDigits before
  | _ :: after =>
      (before.all Char.isDigit && after.all Char.isDigit)
        && (!before.isEmpty || !after.isEmpty)

/-- Exponent tail of a JS decimal literal: optional sign, then digits. -/
def expOk : List Char → Bool
  | [] => false
  | c :: cs => if c == '+' || c == '-' then decDigits cs else decDigits (c :: cs)

/-- Unsigned JS decimal literal, optionally with an `e`/`E` exponent part. -/
def decLiteral (cs : List Char) : Bool :=
  let m := cs.takeWhile (fun c => c != 'e' && c != 'E')
  match cs.dropWhile (fun c => c != 'e' && c != 'E') with
  | [] => mantissaOk m
  | _ :: ex => mantissaOk m && expOk ex

/-- Optionally signed decimal literal or `Infinity`. -/
def signedDec (cs : List Char) : Bool :=
  match cs with
  | [] => false
  | c :: rest =>
      if c == '+' || c == '-' then
        decLiteral rest || rest == "Infinity".toList
      else
        decLiteral cs || cs == "Infinity".toList

/-- Hex, octal and binary JS numeric literals (`0x…`, `0o…`, `0b…`). -/
def radixLiteral (cs : List Char) : Bool :=
  match cs with
  | '0' :: x :: ds =>
      if x == 'x' || x == 'X' then
        !ds.isEmpty && ds.all (fun c =>
          c.isDigit || (c ≥ 'a' && c ≤ 'f') || (c ≥ 'A' && c ≤ 'F'))
      else if x == 'o' || x == 'O' then
        !ds.isEmpty && ds.all (fun c => c ≥ '0' && c ≤ '7')
      else if x == 'b' || x == 'B' then
        !ds.isEmpty && ds.all (fun c => c == '0' || c == '1')
      else false
  | _ => false

/-- Whether JS `Number(s)` yields a non-NaN value: after trimming
whitespace the text is empty (coerces to `0`) or is a numeric literal. -/
def jsStringIsNumeric (s : String) : Bool :=
  let cs := ((s.toList.dropWhile isJsWhite).reverse.dropWhile isJsWhite).reverse
  cs.isEmpty || signedDec cs || radixLiteral cs

/-- JS `isNaN(s)` for a string argument. -/
def jsIsNaN (s : String) : Bool :=
  !jsStringIsNumeric s

/-- JS `s.toLowerCase()` (ASCII fragment, which covers the reserved
control field names the code compares against). -/
def jsToLowerCase (s : String) : String :=
  String.mk (s.data.map Char.toLower)

/-- Code-point lexicographic comparison of two character sequences: the
ordering `localeCompare` implements on the ASCII `snake_case` sensor
identifiers. -/
def charListLe : List Char → List Char → Bool
  | [], _ => true
  | _ :: _, [] => false
  | a :: as, b :: bs =>
      if a.toNat < b.toNat then true
      else if b.toNat < a.toNat then false
      else charListLe as bs

/-- String comparison used by the sort comparator. -/
def strLe (s t : String) : Bool :=
  charListLe s.data t.data

/-! ## Data model -/

/-- One current telemetry row (`{sensor, value, is_anomaly}`). -/
structure Reading where
  sensor : String
  value : ℚ
  is_anomaly : Bool
deriving DecidableEq, Repr

/-- One timestamped history snapshot; `data` is the sparse sensor-to-value
object, where an entry `(k, none)` models an explicit JSON `null`. -/
structure HistoryEntry where
  timestamp : String
  data : List (String × Option ℚ)
deriving DecidableEq, Repr

/-- JS property read `entry.data[sensorName]`: `none` models `undefined`
(key absent), `some none` models a stored `null`. -/
def entryVal (e : HistoryEntry) (name : String) : Option (Option ℚ) :=
  (e.data.find? (fun p => p.1 == name)).map (fun p => p.2)

/-- Reserved control field names excluded from the display set
(`['matlab_datenum', 'unix_time', 'timestamp']`). -/
def reservedNames : List String :=
  ["matlab_datenum", "unix_time", "timestamp"]

/-- The sort order used by both versions: ascending on the `sensor` key. -/
def sensorLe (a b : Reading) : Prop :=
  strLe a.sensor b.sensor = true

instance : DecidableRel sensorLe :=
  fun a b => inferInstanceAs (Decidable (strLe a.sensor b.sensor = true))

instance : IsTotal Reading sensorLe := by
  constructor
  have aux : ∀ x y : List Char, charListLe x y = true ∨ charListLe y x = true := by
    intro x
    induction x with
    | nil => intro y; exact Or.inl rfl
    | cons a as ih =>
      intro y
      cases y with
      | nil => exact Or.inr rfl
      | cons b bs =>
        rcases Nat.lt_trichotomy a.toNat b.toNat with h | h | h
        · exact Or.inl (by simp [charListLe, h])
        · rcases ih bs with h₂ | h₂
          · exact Or.inl (by simp [charListLe, h, Nat.lt_irrefl, h₂])
          · exact Or.inr (by simp [charListLe, h, Nat.lt_irrefl, h₂])
        · exact Or.inr (by simp [charListLe, h])
  exact fun a b => aux a.sensor.data b.sensor.data

instance : IsTrans Reading sensorLe := by
  constructor
  have aux : ∀ x y z : List Char,
      charListLe x y = true → charListLe y z = true → charListLe x z = true := by
    intro x
    induction x with
    | nil => intro y z _ _; rfl
    | cons a as ih =>
      intro y z hxy hyz
      cases y with
      | nil => simp [charListLe] at hxy
      | cons b bs =>
        cases z with
        | nil => simp [charListLe] at hyz
        | cons c cs =>
          simp only [charListLe] at hxy hyz ⊢
          rcases Nat.lt_trichotomy a.toNat b.toNat with hab | hab | hab
          · rcases Nat.lt_trichotomy b.toNat c.toNat with hbc | hbc | hbc
            · simp [Nat.lt_trans hab hbc]
            · simp [hbc ▸ hab]
            · simp [Nat.lt_asymm hbc, hbc] at hyz
          · rcases Nat.lt_trichotomy b.toNat c.toNat with hbc | hbc | hbc
            · simp [hab ▸ hbc]
            · simp only [hab, hbc, Nat.lt_irrefl, if_false] at hxy hyz ⊢
              exact ih bs cs hxy hyz
            · simp [Nat.lt_asymm hbc, hbc] at hyz
          · simp [Nat.lt_asymm hab, hab] at hxy
  exact fun a b c h h₂ => aux a.sensor.data b.sensor.data c.sensor.data h h₂

/-- Cleaning pass of `src/unnamed/part_000`, lines 56-60: keep entries with
`isNaN(item.sensor)` whose lower-cased sensor is not reserved, then sort by
`a.sensor.localeCompare(b.sensor)` (a stable sort, modelled by the stable
`insertionSort` under code-point order). -/
def cleanReadings (l : List Reading) : List Reading :=
  List.insertionSort sensorLe
    (l.filter fun item =>
      jsIsNaN item.sensor && !(reservedNames.contains (jsToLowerCase item.sensor)))

/-- Cleaning pass of the legacy `src/src/App.jsx`, lines 19-20: the same
filter predicate and the same stable sort by `localeCompare`. -/
def cleanReadingsLegacy (l : List Reading) : List Reading :=
  List.insertionSort sensorLe
    (l.filter fun item =>
      jsIsNaN item.sensor && !(reservedNames.contains (jsToLowerCase item.sensor)))

/-! ## Response, cache and state models -/

/-- The `data` field of a parsed envelope: absent (or otherwise falsy),
present but failing `Array.isArray`, or an array of readings. -/
inductive RespData
  | absent
  | nonArray
  | arr (items : List Reading)
deriving DecidableEq, Repr

/-- A successfully parsed JSON response body. `bare` is a top-level array
(its `system_status`/`data` reads give `undefined`); `scalar` is a number,
string or boolean (field reads give `undefined`); `nullBody` is the JSON
value `null`, on which any field read throws a `TypeError`. -/
inductive Response
  | bare (items : List Reading)
  | envelope (system_status : Option String) (data : RespData)
      (history : Option (List HistoryEntry))
  | scalar
  | nullBody
deriving DecidableEq, Repr

/-- Ways step 1/2 of a refresh can fail: rejected fetch, `!response.ok`,
or a body `response.json()` cannot parse. The code treats all three by the
same `catch` block. -/
inductive FetchErr
  | network
  | badStatus
  | parseFail
deriving DecidableEq, Repr

/-- Content of the `greenhouse_cache` localStorage slot when present and
nonempty: a parseable snapshot object (`history` may have been dropped by
`JSON.stringify` when it was `undefined`), or text `JSON.parse` rejects. -/
inductive CacheVal
  | snapshot (data : List Reading) (history : Option (List HistoryEntry))
      (timestamp : String)
  | unparseable
deriving DecidableEq, Repr

/-- The React state owned by the newer component: `data`/`history` from
`useState`, where `history = none` models it being set to `undefined` from
a snapshot with a dropped `history` field. -/
structure SyncState where
  data : List Reading
  history : Option (List HistoryEntry)
  isOffline : Bool
  loading : Bool
deriving DecidableEq, Repr

/-- Result of one `fetchData()` call of the newer version: the state after
all `set*` calls that executed, the cache slot content, and whether an
exception escaped the function (rejecting its promise). -/
structure FetchOutcome where
  state : SyncState
  cache : Option CacheVal
  threw : Bool
deriving DecidableEq, Repr

/-- JS read `json.system_status` on a non-null parsed body. -/
def respStatus : Response → Option String
  | .envelope s _ _ => s
  | _ => none

/-- JS read `json.data` combined with the `Array.isArray` guard input. -/
def respData : Response → RespData
  | .envelope _ d _ => d
  | _ => .absent

/-- JS read `json.history` on a non-null parsed body. -/
def respHistory : Response → Option (List HistoryEntry)
  | .envelope _ _ h => h
  | _ => none

/-- The `catch` block of `src/unnamed/part_000`, lines 77-87: set offline,
read the cache; a present snapshot is parsed and applied to state; text
that `JSON.parse` rejects throws past the function (the `finally` still
clears `loading`). An absent or empty slot is skipped (`if (cached)`). -/
def catchPath (st : SyncState) (cache : Option CacheVal) : FetchOutcome :=
  let st₁ : SyncState := { st with isOffline := true }
  match cache with
  | none =>
      { state := { st₁ with loading := false }, cache := none, threw := false }
  | some (CacheVal.snapshot d h _) =>
      { state := { st₁ with data := d, history := h, loading := false },
        cache := cache, threw := false }
  | some CacheVal.unparseable =>
      { state := { st₁ with loading := false }, cache := cache, threw := true }

/-- `fetchData` of `src/unnamed/part_000`, lines 48-88, as a function of
the prior state, the prior cache slot, the fetch-and-parse result, and the
current time (`new Date().toISOString()`). A parsed `null` body throws on
the `json.system_status` read and lands in the same `catch` block as a
fetch failure. -/
def fetchData (st : SyncState) (cache : Option CacheVal)
    (result : Except FetchErr Response) (now : String) : FetchOutcome :=
  match result with
  | .error _ => catchPath st cache
  | .ok Response.nullBody => catchPath st cache
  | .ok json =>
    let isS3Backup := respStatus json == some "S3 (Failover Archive)"
    match respData json with
    | RespData.arr items =>
        let cleanData := cleanReadings items
        let st₁ := { st with data := cleanData,
                             history := some ((respHistory json).getD []) }
        if isS3Backup then
          { state := { st₁ with isOffline := true, loading := false },
            cache := cache, threw := false }
        else
          { state := { st₁ with isOffline := false, loading := false },
            cache := some (CacheVal.snapshot cleanData (respHistory json) now),
            threw := false }
    | _ => { state := { st with loading := false }, cache := cache, threw := false }

/-- The React state of the legacy component (no history, no cache). -/
structure LegacyState where
  data : List Reading
  isOffline : Bool
  loading : Bool
deriving DecidableEq, Repr

/-- `fetchData` of the legacy `src/src/App.jsx`, lines 14-29: the body is
`json.filter(...)`, so any non-array body (envelope object, scalar, null)
raises a `TypeError` inside the `try` and joins fetch failures in the
`catch` block, which only flags offline. -/
def fetchDataLegacy (st : LegacyState) (result : Except FetchErr Response) :
    LegacyState :=
  match result with
  | .ok (Response.bare items) =>
      { data := cleanReadingsLegacy items, isOffline := false, loading := false }
  | _ => { st with isOffline := true, loading := false }

/-! ## Chart series derivation -/

/-- One `{time, value}` chart point (presentation fields elided). -/
structure ChartPoint where
  time : String
  value : ℚ
deriving DecidableEq, Repr

/-- JS `parseFloat(v.toFixed(2))`: round to the nearest hundredth, with a
tie resolved to the larger candidate (ECMAScript's "pick the larger n").
For `q = num/den` this is `⌊(q * 100) + 1/2⌋ / 100`, computed on the
reduced numerator/denominator pair. -/
def roundTwo (q : ℚ) : ℚ :=
  Rat.divInt ((200 * q.num + Int.ofNat q.den).fdiv (2 * Int.ofNat q.den)) 100

/-- The filter of `getChartData` (`src/unnamed/part_000`, lines 100-106):
drop `null`/`undefined` values, and drop exact zeros for the two
concentration sensors. -/
def chartKeep (name : String) (e : HistoryEntry) : Bool :=
  match entryVal e name with
  | none => false
  | some none => false
  | some (some v) =>
      if name == "indoor_co2" || name == "indoor_vpd" then v != 0 else true

/-- The value built by the map of `getChartData`, line 110:
`parseFloat(entry.data[sensorName]?.toFixed(2) || 0)`. -/
def chartValue (v : Option (Option ℚ)) : ℚ :=
  match v with
  | some (some q) => roundTwo q
  | _ => 0

/-- `getChartData` of `src/unnamed/part_000`, lines 97-113: early-return
`[]` on an empty history, otherwise filter then map over the entries. -/
def getChartData (history : List HistoryEntry) (name : String) :
    List ChartPoint :=
  if history.length == 0 then []
  else
    (history.filter (chartKeep name)).map fun e =>
      { time := e.timestamp, value := chartValue (entryVal e name) }

/-- CO₂/VPD-class (concentration-style) sensors named by the spec. -/
def isConcSensor (name : String) : Bool :=
  name == "indoor_co2" || name == "indoor_vpd"

/-- Chart-series derivation as the spec words it: iterate history entries
in order, keep exactly those where the sensor's value is present (not
null/undefined) and, for CO₂/VPD-class sensors, not exactly zero, and
round each retained value to two decimal places. -/
def chartSeriesSpec (history : List HistoryEntry) (name : String) :
    List ChartPoint :=
  history.filterMap fun e =>
    match entryVal e name with
    | some (some v) =>
        if isConcSensor name && v == 0 then none
        else some { time := e.timestamp, value := roundTwo v }
    | _ => none

/-- A reading the spec says survives cleaning: its sensor does not parse
as numeric and its lower-cased sensor is not a reserved control name. -/
def specKeeps (r : Reading) : Prop :=
  ¬ jsStringIsNumeric r.sensor = true ∧ jsToLowerCase r.sensor ∉ reservedNames

instance : DecidablePred specKeeps := fun r => by
  unfold specKeeps; infer_instance

/-! ## Theorems -/

/-- The code's filter predicate holds exactly for the readings the spec
says survive cleaning. -/
theorem keep_iff (r : Reading) :
    (jsIsNaN r.sensor && !(reservedNames.contains (jsToLowerCase r.sensor))) = true
      ↔ specKeeps r := by
  simp [jsIsNaN, specKeeps]

/-- Claim C1 as frozen is false on the code: cleaning never deduplicates,
so two distinct readings that share a `sensor` both survive the
filter-and-sort and the displayed sensors are not pairwise distinct. -/
theorem c1_counterexample :
    ¬ ((cleanReadings [⟨"b_temp", 1, false⟩, ⟨"b_temp", 2, false⟩]).map
        Reading.sensor).Nodup := by decide

/-- Claim C1 (amended): cleaning removes exactly the entries whose
`sensor` parses as numeric or whose lower-cased `sensor` is a reserved
control name; every other entry is kept with its multiplicity (duplicates
by `sensor` are retained, there is no deduplication), and the result is
sorted ascending by `sensor` under the case-sensitive code-point order. -/
theorem c1_clean_filters_and_sorts (l : List Reading) :
    List.Sorted sensorLe (cleanReadings l)
    ∧ ∀ r : Reading, (cleanReadings l).count r =
        if specKeeps r then l.count r else 0 := by
  constructor
  · exact List.sorted_insertionSort sensorLe _
  · intro r
    unfold cleanReadings
    rw [(List.perm_insertionSort sensorLe _).count_eq]
    by_cases h : specKeeps r
    · have hp : (fun item : Reading =>
          jsIsNaN item.sensor && !(reservedNames.contains (jsToLowerCase item.sensor))) r = true :=
        (keep_iff r).mpr h
      rw [if_pos h]
      exact List.count_filter hp
    · rw [if_neg h]
      refine List.count_eq_zero.mpr fun hmem => ?_
      exact h ((keep_iff r).mp (List.mem_filter.mp hmem).2)

/-- Claim C2: when the fetch fails (any of the three failure modes) and
the durable cache holds a parseable snapshot, the resulting state's
readings and history are exactly the snapshot's `data` and `history`
fields, and `isOffline` is true. -/
theorem c2_failure_restores_cache (st : SyncState) (d : List Reading)
    (h : Option (List HistoryEntry)) (t now : String) (e : FetchErr) :
    (fetchData st (some (CacheVal.snapshot d h t)) (Except.error e) now).state.data = d
    ∧ (fetchData st (some (CacheVal.snapshot d h t)) (Except.error e) now).state.history = h
    ∧ (fetchData st (some (CacheVal.snapshot d h t)) (Except.error e) now).state.isOffline = true :=
  ⟨rfl, rfl, rfl⟩

/-- Claim C3: a successful envelope whose status is the degraded archival
marker updates readings (cleaned) and history in state, sets `isOffline`,
leaves the durable cache exactly as it was, and throws nothing. -/
theorem c3_soft_offline_keeps_cache (st : SyncState) (cache : Option CacheVal)
    (items : List Reading) (h : Option (List HistoryEntry)) (now : String) :
    (fetchData st cache (Except.ok (Response.envelope (some "S3 (Failover Archive)")
        (RespData.arr items) h)) now)
      = { state := { data := cleanReadings items, history := some (h.getD []),
                     isOffline := true, loading := false },
          cache := cache, threw := false } := by
  unfold fetchData
  simp only [respStatus, respData, respHistory]
  rfl

/-- The filter-then-map the code performs over a history equals the
spec-worded filterMap derivation, entry by entry. -/
theorem chart_filter_map_eq (name : String) : ∀ history : List HistoryEntry,
    ((history.filter (chartKeep name)).map fun e =>
        ({ time := e.timestamp, value := chartValue (entryVal e name) } : ChartPoint))
      = chartSeriesSpec history name := by
  intro history
  induction history with
  | nil => rfl
  | cons e t ih =>
    unfold chartSeriesSpec at ih ⊢
    rw [List.filterMap_cons, List.filter_cons]
    cases hv : entryVal e name with
    | none => simpa [chartKeep, hv] using ih
    | some o =>
      cases o with
      | none => simpa [chartKeep, hv] using ih
      | some v =>
        by_cases hc : (name == "indoor_co2" || name == "indoor_vpd") = true
        · by_cases hz : v = 0
          · simpa [chartKeep, chartValue, isConcSensor, hv, hc, hz] using ih
          · simpa [chartKeep, chartValue, isConcSensor, hv, hc, hz] using ih
        · simpa [chartKeep, chartValue, isConcSensor, hv, hc] using ih

/-- Claim C4: for every sensor identifier and history sequence, the chart
series is exactly the in-order sequence of entries whose value for the
sensor is present (not null/undefined) — excluding exact zeros for the
CO₂/VPD-class sensors — with each retained value rounded to two decimal
places. -/
theorem c4_chart_series (history : List HistoryEntry) (name : String) :
    getChartData history name = chartSeriesSpec history name := by
  cases history with
  | nil => rfl
  | cons e t =>
    unfold getChartData
    rw [if_neg (by simp)]
    exact chart_filter_map_eq name (e :: t)

/-- Claim C5 as frozen is false on the code: in the newer source a
parseable bare-array response is not applied — state keeps its prior
(empty) readings instead of the cleaned array. -/
theorem c5_counterexample :
    (fetchData ⟨[], some [], false, true⟩ none
        (Except.ok (Response.bare [⟨"b_temp", 1, false⟩])) "t").state.data
      ≠ cleanReadings [⟨"b_temp", 1, false⟩] := by decide

/-- Claim C5 (amended): the two response shapes are supported across the
two source versions, not by either alone — the legacy `fetchData` cleans,
sorts and stores bare-array responses, while the newer `fetchData` cleans,
sorts and stores enveloped responses whose `data` is an array (writing the
accompanying history, defaulting to `[]`). -/
theorem c5_shape_support_split :
    (∀ (st : LegacyState) (items : List Reading),
        fetchDataLegacy st (Except.ok (Response.bare items))
          = { data := cleanReadingsLegacy items, isOffline := false, loading := false })
    ∧ (∀ (st : SyncState) (cache : Option CacheVal) (s : Option String)
        (items : List Reading) (h : Option (List HistoryEntry)) (now : String),
        (fetchData st cache (Except.ok (Response.envelope s (RespData.arr items) h)) now).state.data
          = cleanReadings items
        ∧ (fetchData st cache (Except.ok (Response.envelope s (RespData.arr items) h)) now).state.history
          = some (h.getD [])) := by
  refine ⟨fun st items => rfl, fun st cache s items h now => ?_⟩
  unfold fetchData
  simp only [respStatus, respData, respHistory]
  cases hb : (s == some "S3 (Failover Archive)") <;> simp [hb]

/-- On every fetch result, the newer `fetchData` does not throw as long as
the cache slot is not unparseable text. -/
theorem fetchData_no_throw (st : SyncState) (cache : Option CacheVal)
    (result : Except FetchErr Response) (now : String)
    (hc : cache ≠ some CacheVal.unparseable) :
    (fetchData st cache result now).threw = false := by
  have hcatch : (catchPath st cache).threw = false := by
    cases cache with
    | none => rfl
    | some c =>
      cases c with
      | snapshot d h t => rfl
      | unparseable => exact absurd rfl hc
  cases result with
  | error e => exact hcatch
  | ok json =>
    cases json with
    | nullBody => exact hcatch
    | bare items => rfl
    | scalar => rfl
    | envelope s d h =>
      cases d with
      | absent => rfl
      | nonArray => rfl
      | arr items =>
        unfold fetchData
        simp only [respStatus, respData, respHistory]
        cases hb : (s == some "S3 (Failover Archive)") <;> simp [hb]

/-- Claim C6 as frozen is false on the code: when the fetch fails and the
durable cache holds unparseable text, the `JSON.parse` in the catch block
throws and the exception escapes the refresh boundary. -/
theorem c6_counterexample :
    (fetchData ⟨[], some [], false, true⟩ (some CacheVal.unparseable)
        (Except.error FetchErr.network) "t").threw = true := rfl

/-- Claim C6 (amended): for every endpoint response (including failures),
refresh terminates without an exception escaping whenever the durable
cache is absent or holds a parseable snapshot; only an unparseable cache
text read during fetch-failure fallback escapes. -/
theorem c6_no_escape_wellformed_cache (st : SyncState)
    (result : Except FetchErr Response) (now : String) :
    (fetchData st none result now).threw = false
    ∧ ∀ (d : List Reading) (h : Option (List HistoryEntry)) (t : String),
        (fetchData st (some (CacheVal.snapshot d h t)) result now).threw = false :=
  ⟨fetchData_no_throw st none result now (by simp),
   fun d h t => fetchData_no_throw st (some (CacheVal.snapshot d h t)) result now (by simp)⟩

/-- Claim C7: a fetch failure with an absent durable cache leaves the
prior readings and history in place — only `isOffline` and `isLoading`
change — and the cache stays absent, with no exception. -/
theorem c7_failure_without_cache (st : SyncState) (e : FetchErr) (now : String) :
    fetchData st none (Except.error e) now
      = { state := { st with isOffline := true, loading := false },
          cache := none, threw := false } := rfl

/-- Claim C8: applying the cleaning-and-sorting pass to a reading array
that is already clean (no numeric-parseable or reserved-name sensors) and
already sorted ascending by sensor returns the array unchanged. -/
theorem c8_clean_idempotent (l : List Reading)
    (hclean : ∀ r ∈ l, specKeeps r)
    (hsorted : List.Sorted sensorLe l) :
    cleanReadings l = l := by
  unfold cleanReadings
  rw [List.filter_eq_self.mpr fun r hr => (keep_iff r).mpr (hclean r hr),
      hsorted.insertionSort_eq]

/-- Concrete instantiation of `c8_clean_idempotent` on an already-clean,
already-sorted two-element array. -/
theorem c8_witness :
    cleanReadings [⟨"a_rh", 2, false⟩, ⟨"b_temp", 1, false⟩]
      = [⟨"a_rh", 2, false⟩, ⟨"b_temp", 1, false⟩] :=
  c8_clean_idempotent _ (by decide) (by decide)

/-- Claim C9 as frozen is false on the code: a parseable JSON `null` body
has no `data` field, yet refresh does not leave `isOffline` unchanged —
reading `json.system_status` throws and the failure path sets it true. -/
theorem c9_counterexample :
    (⟨[], some [], false, true⟩ : SyncState).isOffline = false
    ∧ (fetchData ⟨[], some [], false, true⟩ none
        (Except.ok Response.nullBody) "t").state.isOffline = true :=
  ⟨rfl, rfl⟩

/-- Claim C9 (amended): every parseable response that is a bare array, a
non-null scalar, or an object whose `data` is missing or not an array is
neither applied nor treated as a failure — state, `isOffline` and the
cache are unchanged and only `isLoading` is cleared; a parseable JSON
`null` body instead throws on property access and is handled exactly like
a fetch failure. -/
theorem c9_nonarray_ignored (st : SyncState) (cache : Option CacheVal) (now : String) :
    (∀ items : List Reading,
        fetchData st cache (Except.ok (Response.bare items)) now
          = { state := { st with loading := false }, cache := cache, threw := false })
    ∧ (∀ (s : Option String) (h : Option (List HistoryEntry)),
        fetchData st cache (Except.ok (Response.envelope s RespData.absent h)) now
          = { state := { st with loading := false }, cache := cache, threw := false }
        ∧ fetchData st cache (Except.ok (Response.envelope s RespData.nonArray h)) now
          = { state := { st with loading := false }, cache := cache, threw := false })
    ∧ fetchData st cache (Except.ok Response.scalar) now
        = { state := { st with loading := false }, cache := cache, threw := false }
    ∧ fetchData st cache (Except.ok Response.nullBody) now
        = fetchData st cache (Except.error FetchErr.network) now :=
  ⟨fun _ => rfl, fun _ _ => ⟨rfl, rfl⟩, rfl, rfl⟩

/-- Claim C10: the reading-cleaning functions of the two source versions
are extensionally equal — both filter with the same predicate and sort
with the same comparator. -/
theorem c10_versions_clean_identically : ∀ l : List Reading,
    cleanReadingsLegacy l = cleanReadings l :=
  fun _ => rfl

end Greenhouse
